import Mathlib

/-!
# any_ptr: a type-erased pointer container with implicit up casting

Shallow embedding of `include/any_ptr.h`.

* Pointer values are addresses (`Nat`, `0` is `nullptr`).
* Pointee types are `CType`: `void`, class types and other (non-class,
  non-pointer) object types, each with its cv-qualifiers.  Pointers to
  pointers, to members and to functions are outside this type universe.
* The class hierarchy of the client program is a parameter (`Hierarchy`).
* An exception in flight is a value of `Exn`; code that may throw returns
  `Except Exn _`.
* Containers live in a `Store` indexed by object identity, so that `swap`
  can be run on aliased arguments.
-/

namespace xxx

/-! ## Types of the client program -/

/-- Cv-unqualified object types a pointer can point to. -/
inductive Core where
  | void
  | cls (id : Nat)
  | fund (id : Nat)
  deriving DecidableEq, Repr

/-- A possibly cv-qualified pointee type: the `T` of a `T*`. -/
structure CType where
  core : Core
  is_const : Bool
  is_volatile : Bool
  deriving DecidableEq, Repr

/-- The cv-unqualified type with the given core. -/
def CType.plain (c : Core) : CType :=
  { core := c, is_const := false, is_volatile := false }

/-- The class hierarchy of the client program, as the compiler resolves it.
`is_base d b` holds when class `b` is an accessible (public) and
unambiguous base class of class `d`, so that `d*` converts to `b*`;
`base_address d b p` is then the address of the `b` sub-object of the `d`
object at the non-null address `p` (`p` plus a fixed offset for a
non-virtual base, found through the object for a virtual one). -/
structure Hierarchy where
  is_base : Nat → Nat → Bool
  base_address : Nat → Nat → Nat → Nat

/-- The identities `std::type_info` objects that the header refers to:
`typeid(void)` and `typeid(T*)`. -/
inductive type_info where
  | void_
  | pointer_to (T : CType)
  deriving DecidableEq, Repr

/-- Exceptions in flight: a thrown `T*` holding an address, or the
library's `bad_any_ptr_cast`. -/
inductive Exn where
  | pointer (T : CType) (value : Nat)
  | bad_any_ptr_cast
  deriving DecidableEq, Repr

/-! ## Pointer conversions of the language -/

/-- Whether every cv-qualifier of `T` is also on `R`. -/
def cv_le (T R : CType) : Bool :=
  (!T.is_const || R.is_const) && (!T.is_volatile || R.is_volatile)

/-- The derived-to-base pointer conversion the compiler emits for an
implicit conversion `d* → b*`: a null pointer stays null, any other
address is moved to the base sub-object. -/
def static_upcast (h : Hierarchy) (d b : Nat) (p : Nat) : Option Nat :=
  if h.is_base d b then some (if p = 0 then 0 else h.base_address d b p)
  else none

/-- Handler matching for a thrown pointer: a handler `catch (R* ptr)` is a
match for an exception object of type `T*` when `T*` is `R*` or converts to
it by a standard pointer conversion (to `void*`, or to an accessible
unambiguous base) and/or a qualification conversion.  On a match the
result is the value bound to `ptr`. -/
def catch_pointer (h : Hierarchy) (T R : CType) (p : Nat) : Option Nat :=
  if cv_le T R then
    if T.core = R.core then some p
    else
      match R.core, T.core with
      | Core.void, _ => some p
      | Core.cls b, Core.cls d => static_upcast h d b p
      | _, _ => none
  else none

/-- Match an exception in flight against the handler `catch (R* ptr)`. -/
def handler_match (h : Hierarchy) (e : Exn) (R : CType) : Option Nat :=
  match e with
  | Exn.pointer T p => catch_pointer h T R p
  | Exn.bad_any_ptr_cast => none

/-! ## The container -/

/-- Instance `throw_function<T>`: `throw static_cast<T*>(ptr);`. -/
def throw_function (T : CType) (ptr : Nat) : Except Exn Unit :=
  Except.error (Exn.pointer T ptr)

/-- Values of type `Throw_func *` other than null: the address of an
instance of `throw_function`. -/
inductive Throw_func where
  | throw_function_at (T : CType)
  deriving DecidableEq, Repr

/-- Call through a `Throw_func *`. -/
def Throw_func.call (f : Throw_func) (ptr : Nat) : Except Exn Unit :=
  match f with
  | Throw_func.throw_function_at T => throw_function T ptr

/-- The three data members of `any_ptr`; `none` is a null pointer. -/
structure any_ptr where
  my_ptr : Nat
  my_throw_func : Option Throw_func
  my_type_info : Option type_info
  deriving DecidableEq, Repr

namespace any_ptr

/-- Constructor `any_ptr()`: the default member initialisers. -/
def empty : any_ptr :=
  { my_ptr := 0, my_throw_func := none, my_type_info := none }

/-- Constructor `any_ptr(T* ptr)`. -/
def of_pointer (T : CType) (ptr : Nat) : any_ptr :=
  { my_ptr := ptr
    my_throw_func := some (Throw_func.throw_function_at T)
    my_type_info := some (type_info.pointer_to T) }

/-- Observer `has_value()`: `my_throw_func != nullptr`. -/
def has_value (self : any_ptr) : Bool :=
  self.my_throw_func.isSome

/-- Observer `type()`: `my_type_info ? *my_type_info : typeid(void)`. -/
def type (self : any_ptr) : type_info :=
  match self.my_type_info with
  | some ti => ti
  | none => type_info.void_

/-- Member `dynamic_up_cast<T>()`.  The function is `noexcept`; the model
returns `Except` so that this is a property to prove, not an assumption. -/
def dynamic_up_cast (h : Hierarchy) (self : any_ptr) (T : CType) :
    Except Exn (Nat × Bool) :=
  let result : Nat × Bool := (0, false)
  if self.type = type_info.pointer_to T then
    Except.ok (self.my_ptr, true)
  else if self.has_value then
    match self.my_throw_func with
    | some f =>
      match f.call self.my_ptr with
      | Except.ok _ => Except.ok result
      | Except.error e =>
        match handler_match h e T with
        | some ptr => Except.ok (ptr, true)
        | none => Except.ok result
    | none => Except.ok result
  else Except.ok result

end any_ptr

/-- Free function `any_ptr_cast<T>(any_ptr const * any_ptr_)`, applied to
a non-null pointer to the container `a`. -/
def any_ptr_cast_ptr (h : Hierarchy) (a : any_ptr) (T : CType) :
    Except Exn (Option Nat) :=
  match a.dynamic_up_cast h T with
  | Except.error e => Except.error e
  | Except.ok cast_result =>
    if cast_result.2 then Except.ok (some cast_result.1) else Except.ok none

/-- Free function `any_ptr_cast<T>(any_ptr const & any_ptr_)`. -/
def any_ptr_cast_ref (h : Hierarchy) (a : any_ptr) (T : CType) :
    Except Exn Nat :=
  match a.dynamic_up_cast h T with
  | Except.error e => Except.error e
  | Except.ok result =>
    if result.2 then Except.ok result.1 else Except.error Exn.bad_any_ptr_cast

/-- Whether the language converts a `T*` to an `R*` implicitly by the
conversions a handler admits: identity, qualification conversion,
conversion to `void*`, conversion to an accessible unambiguous base. -/
def implicitly_convertible (h : Hierarchy) (T R : CType) : Bool :=
  cv_le T R &&
    (decide (T.core = R.core) || decide (R.core = Core.void) ||
      match T.core, R.core with
      | Core.cls d, Core.cls b => h.is_base d b
      | _, _ => false)

/-- Whether two types are related by inheritance in either direction:
both are class types and one is a base class of the other. -/
def inheritance_related (h : Hierarchy) (A B : CType) : Bool :=
  match A.core, B.core with
  | Core.cls a, Core.cls b => h.is_base a b || h.is_base b a
  | _, _ => false

/-- Whether `R` is an upcast target of `T`: both are class types, the
class of `R` is an accessible unambiguous base of the class of `T`, and
`R` carries the cv-qualifiers of `T`. -/
def upcast_target (h : Hierarchy) (T R : CType) : Bool :=
  match T.core, R.core with
  | Core.cls d, Core.cls b => h.is_base d b && cv_le T R
  | _, _ => false

/-! ## Containers as objects -/

/-- Identity of a container object. -/
abbrev Ref := Nat

/-- The container objects of a program, by identity. -/
abbrev Store := Ref → any_ptr

/-- Overwrite one object. -/
def Store.write (st : Store) (r : Ref) (v : any_ptr) : Store :=
  fun x => if x = r then v else st x

/-- Every object default-constructed. -/
def Store.init : Store := fun _ => any_ptr.empty

namespace any_ptr

/-- Defaulted special members copy or move member by member; the three
members are pointers, for which a move is a copy that leaves the source
member as it was. -/
def memberwise (other : any_ptr) : any_ptr :=
  { my_ptr := other.my_ptr
    my_throw_func := other.my_throw_func
    my_type_info := other.my_type_info }

/-- Run `any_ptr()` for the object `self`. -/
def default_ctor (st : Store) (self : Ref) : Store :=
  st.write self any_ptr.empty

/-- Run `any_ptr(T* ptr)` for the object `self`. -/
def pointer_ctor (st : Store) (self : Ref) (T : CType) (ptr : Nat) : Store :=
  st.write self (any_ptr.of_pointer T ptr)

/-- Run `any_ptr(any_ptr const & other)` (defaulted) for the object `self`. -/
def copy_ctor (st : Store) (self other : Ref) : Store :=
  st.write self (memberwise (st other))

/-- Run `any_ptr(any_ptr && other)` (defaulted) for the object `self`. -/
def move_ctor (st : Store) (self other : Ref) : Store :=
  st.write self (memberwise (st other))

/-- Run `operator=(any_ptr const & other)` (defaulted) on `self`. -/
def copy_assign (st : Store) (self other : Ref) : Store :=
  st.write self (memberwise (st other))

/-- Run `operator=(any_ptr && other)` (defaulted) on `self`. -/
def move_assign (st : Store) (self other : Ref) : Store :=
  st.write self (memberwise (st other))

/-- Library function `std::exchange(obj, std::move(new_value))`:
`T old_value = std::move(obj); obj = std::forward<U>(new_value);
return old_value;`. -/
def exchange (st : Store) (obj new_value : Ref) : any_ptr × Store :=
  let old_value := memberwise (st obj)
  (old_value, move_assign st obj new_value)

/-- Member `swap`: `other = std::exchange(*this, std::move(other));`. -/
def swap (st : Store) (self other : Ref) : Store :=
  let r := exchange st self other
  r.2.write other (memberwise r.1)

/-- Member `reset`: `::new (this) any_ptr();`. -/
def reset (st : Store) (self : Ref) : Store :=
  default_ctor st self

end any_ptr

/-- Overload `std::swap(xxx::any_ptr & lhs, xxx::any_ptr & rhs)`:
`lhs.swap(rhs);`. -/
def std_swap (st : Store) (lhs rhs : Ref) : Store :=
  any_ptr.swap st lhs rhs

/-- Retrieval through a pointer to the object `r`.  The parameter is
`any_ptr const *` and no member is written: the store comes back as it
was given. -/
def any_ptr_cast_ptr_at (h : Hierarchy) (st : Store) (r : Ref) (T : CType) :
    Except Exn (Option Nat) × Store :=
  (any_ptr_cast_ptr h (st r) T, st)

/-- Retrieval through a reference to the object `r`.  The parameter is
`any_ptr const &` and no member is written. -/
def any_ptr_cast_ref_at (h : Hierarchy) (st : Store) (r : Ref) (T : CType) :
    Except Exn Nat × Store :=
  (any_ptr_cast_ref h (st r) T, st)

/-- The operations that create or change a container. -/
inductive Op where
  | default_ctor (self : Ref)
  | pointer_ctor (self : Ref) (T : CType) (ptr : Nat)
  | copy_ctor (self other : Ref)
  | move_ctor (self other : Ref)
  | copy_assign (self other : Ref)
  | move_assign (self other : Ref)
  | swap (self other : Ref)
  | std_swap (lhs rhs : Ref)
  | reset (self : Ref)
  deriving DecidableEq, Repr

/-- Run one operation. -/
def Op.step (st : Store) : Op → Store
  | Op.default_ctor self => any_ptr.default_ctor st self
  | Op.pointer_ctor self T ptr => any_ptr.pointer_ctor st self T ptr
  | Op.copy_ctor self other => any_ptr.copy_ctor st self other
  | Op.move_ctor self other => any_ptr.move_ctor st self other
  | Op.copy_assign self other => any_ptr.copy_assign st self other
  | Op.move_assign self other => any_ptr.move_assign st self other
  | Op.swap self other => any_ptr.swap st self other
  | Op.std_swap lhs rhs => xxx.std_swap st lhs rhs
  | Op.reset self => any_ptr.reset st self

/-- Run a sequence of operations, first to last, from the store in which
every object is default-constructed. -/
def run (ops : List Op) : Store :=
  ops.foldl Op.step Store.init

/-- Whether the operation binds no null pointer. -/
def Op.binds_nonnull : Op → Bool
  | Op.pointer_ctor _ _ ptr => decide (ptr ≠ 0)
  | _ => true

/-- All three members in the default state. -/
def any_ptr.all_empty (c : any_ptr) : Prop :=
  c.my_ptr = 0 ∧ c.my_type_info = none ∧ c.my_throw_func = none

/-- Raw pointer non-null, type tag present, thrower present. -/
def any_ptr.all_set (c : any_ptr) : Prop :=
  c.my_ptr ≠ 0 ∧ c.my_type_info.isSome = true ∧ c.my_throw_func.isSome = true

/-- Type tag and thrower of one and the same type `T`. -/
def any_ptr.bound_to (c : any_ptr) (T : CType) : Prop :=
  c.my_type_info = some (type_info.pointer_to T) ∧
    c.my_throw_func = some (Throw_func.throw_function_at T)

/-- The matching routine in the words of the specification, for a
requested type `R`.  (1) An empty container gives `(null, false)`.
(2) Otherwise a type tag equal to the identity of `R*` gives
`(raw_pointer, true)`, with no dispatch.  (3) Otherwise the dispatch is a
throw of `raw_pointer` with the static type `T*` of the type tag; caught
as `R*` it gives `(converted pointer, true)`, not caught it gives
`(null, false)`. -/
def spec_matching_routine (h : Hierarchy) (c : any_ptr) (R : CType) :
    Nat × Bool :=
  if c.has_value = false then (0, false)
  else
    match c.my_type_info with
    | some (type_info.pointer_to T) =>
      if T = R then (c.my_ptr, true)
      else
        match catch_pointer h T R c.my_ptr with
        | some converted => (converted, true)
        | none => (0, false)
    | _ => (0, false)

/-! ## Sample programs -/

/-- A program without any base class. -/
def no_bases : Hierarchy :=
  { is_base := fun _ _ => false
    base_address := fun _ _ p => p }

/-- A program in which class 0 is a public base of class 1, at offset 8. -/
def one_base : Hierarchy :=
  { is_base := fun d b => decide (d = 1 ∧ b = 0)
    base_address := fun _ _ p => p + 8 }

/-- Two objects: object 0 bound to the pointer 100 to class 0, object 1
bound to the pointer 200 to class 1. -/
def two_bound : Store :=
  any_ptr.pointer_ctor
    (any_ptr.pointer_ctor Store.init 0 (CType.plain (Core.cls 0)) 100)
    1 (CType.plain (Core.cls 1)) 200

/-- The class type with the given id, without qualifiers. -/
def class_type (id : Nat) : CType := CType.plain (Core.cls id)

/-- Plain `void`. -/
def void_type : CType := CType.plain Core.void

/-- The type `const T`. -/
def CType.add_const (T : CType) : CType :=
  { core := T.core, is_const := true, is_volatile := T.is_volatile }

/-! ## Theorems -/

/-- C1: exact round trip. For every type T and every pointer value p, null
included, the container constructed from p gives present(p) in the
non-throwing form and returns p without raising in the throwing form. -/
theorem exact_round_trip (h : Hierarchy) (T : CType) (p : Nat) :
    any_ptr_cast_ptr h (any_ptr.of_pointer T p) T = Except.ok (some p) ∧
    any_ptr_cast_ref h (any_ptr.of_pointer T p) T = Except.ok p := by
  simp [any_ptr_cast_ptr, any_ptr_cast_ref, any_ptr.dynamic_up_cast,
    any_ptr.of_pointer, any_ptr.type]

/-! ### The matching routine on a bound container -/

/-- Exact path: the requested type is the bound type. -/
theorem dynamic_up_cast_exact (h : Hierarchy) (T : CType) (p : Nat) :
    (any_ptr.of_pointer T p).dynamic_up_cast h T = Except.ok (p, true) := by
  simp [any_ptr.dynamic_up_cast, any_ptr.of_pointer, any_ptr.type]

/-- Throw and catch path: the requested type differs from the bound type. -/
theorem dynamic_up_cast_thrown (h : Hierarchy) (T R : CType) (p : Nat)
    (hne : T ≠ R) :
    (any_ptr.of_pointer T p).dynamic_up_cast h R =
      match catch_pointer h T R p with
      | some q => Except.ok (q, true)
      | none => Except.ok (0, false) := by
  simp [any_ptr.dynamic_up_cast, any_ptr.of_pointer, any_ptr.type,
    any_ptr.has_value, Throw_func.call, throw_function, handler_match, hne]

/-- The handler matches exactly when the pointer types convert. -/
theorem catch_pointer_isSome (h : Hierarchy) (T R : CType) (p : Nat) :
    (catch_pointer h T R p).isSome = implicitly_convertible h T R := by
  unfold catch_pointer implicitly_convertible static_upcast
  cases hcv : cv_le T R
  · simp
  · by_cases hc : T.core = R.core
    · simp [hc]
    · cases hR : R.core <;> cases hT : T.core <;> simp_all
      split <;> simp_all

/-- The matching routine never lets an exception out. -/
theorem dynamic_up_cast_total (h : Hierarchy) (c : any_ptr) (R : CType) :
    ∃ r, c.dynamic_up_cast h R = Except.ok r := by
  unfold any_ptr.dynamic_up_cast
  simp only []
  split
  · exact ⟨_, rfl⟩
  · split
    · split
      · split
        · exact ⟨_, rfl⟩
        · split <;> exact ⟨_, rfl⟩
      · exact ⟨_, rfl⟩
    · exact ⟨_, rfl⟩

/-- A failing match has a null pointer component. -/
theorem dynamic_up_cast_failing (h : Hierarchy) (c : any_ptr) (R : CType)
    (r : Nat × Bool) (hr : c.dynamic_up_cast h R = Except.ok r)
    (hf : r.2 = false) : r.1 = 0 := by
  unfold any_ptr.dynamic_up_cast at hr
  simp only [] at hr
  split at hr
  · cases hr; simp at hf
  · split at hr
    · split at hr
      · split at hr
        · cases hr; rfl
        · split at hr <;> cases hr
          · simp at hf
          · rfl
      · cases hr; rfl
    · cases hr; rfl

/-! ### Reachable containers -/

/-- Member-wise copy gives an equal container. -/
theorem memberwise_eq (c : any_ptr) : any_ptr.memberwise c = c := rfl

/-- After `swap` each object holds a value that was in the store before. -/
theorem swap_apply (st : Store) (x y r : Ref) :
    any_ptr.swap st x y r =
      if r = y then st x else if r = x then st y else st r := by
  simp [any_ptr.swap, any_ptr.exchange, any_ptr.move_assign, Store.write,
    memberwise_eq]

/-- One operation keeps a property of all containers that holds of the
empty container and of the container this operation constructs. -/
theorem step_preserves (P : any_ptr → Prop) (hempty : P any_ptr.empty)
    (op : Op)
    (hop : ∀ self T p, op = Op.pointer_ctor self T p →
      P (any_ptr.of_pointer T p))
    (st : Store) (hst : ∀ r, P (st r)) : ∀ r, P (op.step st r) := by
  intro r
  cases op with
  | default_ctor self =>
    simp only [Op.step, any_ptr.default_ctor, Store.write]
    split <;> simp [hempty, hst]
  | pointer_ctor self T p =>
    simp only [Op.step, any_ptr.pointer_ctor, Store.write]
    split
    · exact hop self T p rfl
    · exact hst r
  | copy_ctor self other =>
    simp only [Op.step, any_ptr.copy_ctor, Store.write, memberwise_eq]
    split <;> simp [hst]
  | move_ctor self other =>
    simp only [Op.step, any_ptr.move_ctor, Store.write, memberwise_eq]
    split <;> simp [hst]
  | copy_assign self other =>
    simp only [Op.step, any_ptr.copy_assign, Store.write, memberwise_eq]
    split <;> simp [hst]
  | move_assign self other =>
    simp only [Op.step, any_ptr.move_assign, Store.write, memberwise_eq]
    split <;> simp [hst]
  | swap self other =>
    simp only [Op.step, swap_apply]
    split
    · exact hst _
    · split <;> exact hst _
  | std_swap lhs rhs =>
    simp only [Op.step, std_swap, swap_apply]
    split
    · exact hst _
    · split <;> exact hst _
  | reset self =>
    simp only [Op.step, any_ptr.reset, any_ptr.default_ctor, Store.write]
    split <;> simp [hempty, hst]

/-- A sequence of operations keeps such a property from any store. -/
theorem foldl_preserves (P : any_ptr → Prop) (hempty : P any_ptr.empty)
    (ops : List Op)
    (hops : ∀ op ∈ ops, ∀ self T p, op = Op.pointer_ctor self T p →
      P (any_ptr.of_pointer T p))
    (st : Store) (hst : ∀ r, P (st r)) :
    ∀ r, P (ops.foldl Op.step st r) := by
  induction ops generalizing st with
  | nil => simpa using hst
  | cons op rest ih =>
    simp only [List.foldl_cons]
    apply ih
    · intro op2 hmem
      exact hops op2 (List.mem_cons_of_mem _ hmem)
    · exact step_preserves P hempty op (hops op (List.mem_cons_self _ _)) st hst

/-- Every reachable container satisfies such a property. -/
theorem run_preserves (P : any_ptr → Prop) (hempty : P any_ptr.empty)
    (ops : List Op)
    (hops : ∀ op ∈ ops, ∀ self T p, op = Op.pointer_ctor self T p →
      P (any_ptr.of_pointer T p)) :
    ∀ r, P (run ops r) :=
  foldl_preserves P hempty ops hops Store.init (fun _ => hempty)

/-- Every reachable container is the empty container or one constructed
from a pointer. -/
theorem run_shape (ops : List Op) (r : Ref) :
    run ops r = any_ptr.empty ∨ ∃ T p, run ops r = any_ptr.of_pointer T p :=
  run_preserves
    (fun c => c = any_ptr.empty ∨ ∃ T p, c = any_ptr.of_pointer T p)
    (Or.inl rfl) ops (fun _ _ _ T p _ => Or.inr ⟨T, p, rfl⟩) r

/-- Retrieval from the empty container fails through the emptiness test. -/
theorem dynamic_up_cast_empty (h : Hierarchy) (R : CType) :
    any_ptr.empty.dynamic_up_cast h R = Except.ok (0, false) := by
  simp [any_ptr.dynamic_up_cast, any_ptr.empty, any_ptr.type,
    any_ptr.has_value]

/-- A type converts to itself. -/
theorem implicitly_convertible_refl (h : Hierarchy) (T : CType) :
    implicitly_convertible h T T = true := by
  simp [implicitly_convertible, cv_le]

/-! ### The two retrieval forms on empty and bound containers -/

/-- Non-throwing form on the empty container. -/
theorem any_ptr_cast_ptr_empty (h : Hierarchy) (R : CType) :
    any_ptr_cast_ptr h any_ptr.empty R = Except.ok none := by
  simp only [any_ptr_cast_ptr, dynamic_up_cast_empty]
  rfl

/-- Throwing form on the empty container. -/
theorem any_ptr_cast_ref_empty (h : Hierarchy) (R : CType) :
    any_ptr_cast_ref h any_ptr.empty R
      = Except.error Exn.bad_any_ptr_cast := by
  simp only [any_ptr_cast_ref, dynamic_up_cast_empty]
  rfl

/-- Non-throwing form, requested type equal to the bound type. -/
theorem any_ptr_cast_ptr_exact (h : Hierarchy) (T : CType) (p : Nat) :
    any_ptr_cast_ptr h (any_ptr.of_pointer T p) T = Except.ok (some p) := by
  simp only [any_ptr_cast_ptr, dynamic_up_cast_exact]
  rfl

/-- Throwing form, requested type equal to the bound type. -/
theorem any_ptr_cast_ref_exact (h : Hierarchy) (T : CType) (p : Nat) :
    any_ptr_cast_ref h (any_ptr.of_pointer T p) T = Except.ok p := by
  simp only [any_ptr_cast_ref, dynamic_up_cast_exact]
  rfl

/-- Non-throwing form, requested type other than the bound type: the
result is what the handler caught. -/
theorem any_ptr_cast_ptr_thrown (h : Hierarchy) (T R : CType) (p : Nat)
    (hne : T ≠ R) :
    any_ptr_cast_ptr h (any_ptr.of_pointer T p) R
      = Except.ok (catch_pointer h T R p) := by
  simp only [any_ptr_cast_ptr, dynamic_up_cast_thrown h T R p hne]
  cases catch_pointer h T R p <;> rfl

/-- Throwing form, requested type other than the bound type. -/
theorem any_ptr_cast_ref_thrown (h : Hierarchy) (T R : CType) (p : Nat)
    (hne : T ≠ R) :
    any_ptr_cast_ref h (any_ptr.of_pointer T p) R =
      match catch_pointer h T R p with
      | some q => Except.ok q
      | none => Except.error Exn.bad_any_ptr_cast := by
  simp only [any_ptr_cast_ref, dynamic_up_cast_thrown h T R p hne]
  cases catch_pointer h T R p <;> rfl

/-- The handler does not match exactly when the pointer types do not
convert. -/
theorem catch_pointer_eq_none (h : Hierarchy) (T R : CType) (p : Nat) :
    catch_pointer h T R p = none ↔ implicitly_convertible h T R = false := by
  rw [← catch_pointer_isSome h T R p]
  cases catch_pointer h T R p <;> simp

/-! ### Claims -/

/-- C2: upcast correctness. When class B is an accessible unambiguous
base of class D and d is a non-null D*, retrieving B from the container
constructed from d succeeds in both forms, and the pointer returned is the
address of the B sub-object, which is the pointer the static
derived-to-base conversion of d computes, not the stored address. -/
theorem upcast_correct (h : Hierarchy) (D B d : Nat) (hne : D ≠ B)
    (hbase : h.is_base D B = true) (hd : d ≠ 0) :
    any_ptr_cast_ptr h (any_ptr.of_pointer (class_type D) d) (class_type B)
      = Except.ok (some (h.base_address D B d)) ∧
    any_ptr_cast_ref h (any_ptr.of_pointer (class_type D) d) (class_type B)
      = Except.ok (h.base_address D B d) ∧
    static_upcast h D B d = some (h.base_address D B d) := by
  have hT : class_type D ≠ class_type B := by
    simp [class_type, CType.plain, hne]
  have hs : static_upcast h D B d = some (h.base_address D B d) := by
    simp [static_upcast, hbase, hd]
  have hc : catch_pointer h (class_type D) (class_type B) d
      = some (h.base_address D B d) := by
    simp [catch_pointer, class_type, CType.plain, cv_le, hne, hs]
  refine ⟨?_, ?_, hs⟩
  · rw [any_ptr_cast_ptr_thrown h _ _ d hT, hc]
  · rw [any_ptr_cast_ref_thrown h _ _ d hT, hc]

/-- Witness of C2 in a program where class 0 is a base of class 1 at
offset 8: a pointer 100 to class 1 is retrieved as 108. -/
theorem upcast_correct_witness :
    (1 : Nat) ≠ 0 ∧ one_base.is_base 1 0 = true ∧ (100 : Nat) ≠ 0 ∧
    any_ptr_cast_ptr one_base (any_ptr.of_pointer (class_type 1) 100)
        (class_type 0) = Except.ok (some 108) ∧
    any_ptr_cast_ref one_base (any_ptr.of_pointer (class_type 1) 100)
        (class_type 0) = Except.ok 108 ∧
    static_upcast one_base 1 0 100 = some 108 :=
  ⟨by decide, rfl, by decide,
    upcast_correct one_base 1 0 100 (by decide) rfl (by decide)⟩

/-- C3 as stated fails: in a program without base classes, class 0 and
void have no inheritance relation, yet a pointer to class 0 is retrieved
as void in both forms. -/
theorem unrelated_rejection_counterexample :
    inheritance_related no_bases (class_type 0) void_type = false ∧
    class_type 0 ≠ void_type ∧
    any_ptr_cast_ptr no_bases (any_ptr.of_pointer (class_type 0) 100)
        void_type = Except.ok (some 100) ∧
    any_ptr_cast_ref no_bases (any_ptr.of_pointer (class_type 0) 100)
        void_type = Except.ok 100 :=
  ⟨by decide, by decide, rfl, rfl⟩

/-- C3, amended: when A* does not convert implicitly to B* (B is not A,
not A with more qualifiers, not void with at least the qualifiers of A,
not an accessible unambiguous base of A), the container constructed from
an A* gives absent in the non-throwing form and raises bad_any_ptr_cast
in the throwing form, and the matching routine returns (null, false)
without letting the thrown pointer escape. -/
theorem unrelated_rejection (h : Hierarchy) (A B : CType) (a : Nat)
    (hconv : implicitly_convertible h A B = false) :
    any_ptr_cast_ptr h (any_ptr.of_pointer A a) B = Except.ok none ∧
    any_ptr_cast_ref h (any_ptr.of_pointer A a) B
      = Except.error Exn.bad_any_ptr_cast ∧
    (any_ptr.of_pointer A a).dynamic_up_cast h B = Except.ok (0, false) := by
  have hne : A ≠ B := by
    intro heq
    rw [heq, implicitly_convertible_refl] at hconv
    cases hconv
  have hc : catch_pointer h A B a = none :=
    (catch_pointer_eq_none h A B a).mpr hconv
  refine ⟨?_, ?_, ?_⟩
  · rw [any_ptr_cast_ptr_thrown h A B a hne, hc]
  · rw [any_ptr_cast_ref_thrown h A B a hne, hc]
  · rw [dynamic_up_cast_thrown h A B a hne, hc]

/-- Witness of C3, amended: classes 0 and 1 of a program without base
classes. -/
theorem unrelated_rejection_witness :
    implicitly_convertible no_bases (class_type 0) (class_type 1) = false ∧
    any_ptr_cast_ptr no_bases (any_ptr.of_pointer (class_type 0) 100)
        (class_type 1) = Except.ok none ∧
    any_ptr_cast_ref no_bases (any_ptr.of_pointer (class_type 0) 100)
        (class_type 1) = Except.error Exn.bad_any_ptr_cast ∧
    (any_ptr.of_pointer (class_type 0) 100).dynamic_up_cast no_bases
        (class_type 1) = Except.ok (0, false) :=
  ⟨by decide,
    unrelated_rejection no_bases (class_type 0) (class_type 1) 100 (by decide)⟩

/-- C4: empty-state contract. A default-constructed container has
has_value() false and type() equal to typeid(void), which is not
typeid(R*) for any R; for every requested type R the non-throwing
retrieval gives absent and the throwing retrieval raises
bad_any_ptr_cast. -/
theorem empty_state_contract (h : Hierarchy) (st : Store) (x : Ref)
    (R : CType) :
    any_ptr.default_ctor st x x = any_ptr.empty ∧
    any_ptr.empty.has_value = false ∧
    any_ptr.empty.type = type_info.void_ ∧
    any_ptr.empty.type ≠ type_info.pointer_to R ∧
    any_ptr_cast_ptr h any_ptr.empty R = Except.ok none ∧
    any_ptr_cast_ref h any_ptr.empty R
      = Except.error Exn.bad_any_ptr_cast := by
  refine ⟨?_, rfl, rfl, ?_, ?_, ?_⟩
  · simp [any_ptr.default_ctor, Store.write]
  · simp [any_ptr.empty, any_ptr.type]
  · exact any_ptr_cast_ptr_empty h R
  · exact any_ptr_cast_ref_empty h R

/-- C5 as stated fails: a container bound to a pointer to class 0 is not
empty, and void is neither the bound type nor an upcast target of class 0,
yet the non-throwing form gives present and the throwing form does not
raise. -/
theorem retrieval_forms_counterexample :
    (any_ptr.of_pointer (class_type 0) 100).has_value = true ∧
    (any_ptr.of_pointer (class_type 0) 100).type
      ≠ type_info.pointer_to void_type ∧
    upcast_target no_bases (class_type 0) void_type = false ∧
    any_ptr_cast_ptr no_bases (any_ptr.of_pointer (class_type 0) 100)
        void_type ≠ Except.ok none ∧
    any_ptr_cast_ref no_bases (any_ptr.of_pointer (class_type 0) 100)
        void_type = Except.ok 100 := by
  refine ⟨rfl, by decide, rfl, ?_, rfl⟩
  intro habs
  cases habs

/-- C5, amended: agreement of the two retrieval forms. For every
container and requested type the non-throwing form never raises; the
throwing form raises bad_any_ptr_cast exactly when the non-throwing form
gives absent, returns p exactly when the non-throwing form gives
present(p), and raises nothing else; and on every reachable container
absent means that the container is empty or that the requested type R is
neither the bound type T nor a type with T* implicitly convertible to R*
(an upcast target, void, or T with added qualifiers). -/
theorem retrieval_forms_agree (h : Hierarchy) (c : any_ptr) (R : CType) :
    (∃ o, any_ptr_cast_ptr h c R = Except.ok o) ∧
    (any_ptr_cast_ref h c R = Except.error Exn.bad_any_ptr_cast ↔
      any_ptr_cast_ptr h c R = Except.ok none) ∧
    (∀ p, any_ptr_cast_ref h c R = Except.ok p ↔
      any_ptr_cast_ptr h c R = Except.ok (some p)) ∧
    (∀ e, any_ptr_cast_ref h c R = Except.error e →
      e = Exn.bad_any_ptr_cast) ∧
    (∀ ops r, c = run ops r →
      (any_ptr_cast_ptr h c R = Except.ok none ↔
        (c.has_value = false ∨
          ∃ T, c.type = type_info.pointer_to T ∧ T ≠ R ∧
            implicitly_convertible h T R = false))) := by
  obtain ⟨res, hres⟩ := dynamic_up_cast_total h c R
  refine ⟨?_, ?_, ?_, ?_, ?_⟩
  · simp only [any_ptr_cast_ptr, hres]
    split <;> exact ⟨_, rfl⟩
  · simp only [any_ptr_cast_ptr, any_ptr_cast_ref, hres]
    split <;> simp
  · intro p
    simp only [any_ptr_cast_ptr, any_ptr_cast_ref, hres]
    split <;> simp
  · intro e
    simp only [any_ptr_cast_ref, hres]
    split <;> simp
    intro he
    exact he.symm
  · intro ops r hc
    rcases run_shape ops r with he | ⟨T, p, hb⟩
    · rw [hc, he, any_ptr_cast_ptr_empty]
      simp [any_ptr.empty, any_ptr.has_value]
    · rw [hc, hb]
      by_cases hTR : T = R
      · subst hTR
        rw [any_ptr_cast_ptr_exact]
        simp [any_ptr.of_pointer, any_ptr.has_value, any_ptr.type]
      · rw [any_ptr_cast_ptr_thrown h T R p hTR]
        simp [any_ptr.of_pointer, any_ptr.has_value, any_ptr.type, hTR,
          catch_pointer_eq_none]

/-- C6 as stated fails: the container constructed from a null pointer to
class 0 has a null raw pointer together with a type tag and a thrower, so
it is neither all empty nor all set. -/
theorem coherent_emptiness_counterexample :
    (run [Op.pointer_ctor 0 (class_type 0) 0] 0).my_ptr = 0 ∧
    (run [Op.pointer_ctor 0 (class_type 0) 0] 0).my_type_info
      = some (type_info.pointer_to (class_type 0)) ∧
    (run [Op.pointer_ctor 0 (class_type 0) 0] 0).my_throw_func
      = some (Throw_func.throw_function_at (class_type 0)) ∧
    ¬ ((run [Op.pointer_ctor 0 (class_type 0) 0] 0).all_empty ∨
       (run [Op.pointer_ctor 0 (class_type 0) 0] 0).all_set) := by
  refine ⟨rfl, rfl, rfl, ?_⟩
  rintro (⟨_, ht, _⟩ | ⟨hp, _, _⟩)
  · cases ht
  · exact hp rfl

/-- C6, amended: in every container obtainable from the constructors by
copy, move, swap and reset, either all three fields are empty, or the type
tag and the thrower are both present and the raw pointer is a pointer that
some constructor call bound, with the type of that call in the tag and in
the thrower; the raw pointer is null exactly when that bound pointer was
null, so when no constructor was given a null pointer the fields are all
empty or all set. The constructor stores the pointer it is given. -/
theorem coherent_emptiness (ops : List Op) (r : Ref) :
    ((run ops r).all_empty ∨
      ((run ops r).my_type_info.isSome = true ∧
        (run ops r).my_throw_func.isSome = true)) ∧
    ((run ops r).all_empty ∨
      ∃ self T p, Op.pointer_ctor self T p ∈ ops ∧
        (run ops r).my_ptr = p ∧
        (run ops r).my_type_info = some (type_info.pointer_to T) ∧
        (run ops r).my_throw_func
          = some (Throw_func.throw_function_at T) ∧
        ((run ops r).my_ptr = 0 ↔ p = 0)) ∧
    ((∀ op ∈ ops, op.binds_nonnull = true) →
      ((run ops r).all_empty ∨ (run ops r).all_set)) ∧
    (∀ (st : Store) (x : Ref) (T : CType) (p : Nat),
      (any_ptr.pointer_ctor st x T p x).my_ptr = p ∧
      ((any_ptr.pointer_ctor st x T p x).my_ptr = 0 ↔ p = 0)) := by
  refine ⟨?_, ?_, ?_, ?_⟩
  · exact run_preserves
      (fun c => c.all_empty ∨
        (c.my_type_info.isSome = true ∧ c.my_throw_func.isSome = true))
      (Or.inl ⟨rfl, rfl, rfl⟩) ops
      (fun _ _ _ _ _ _ => Or.inr ⟨rfl, rfl⟩) r
  · refine run_preserves
      (fun c => c.all_empty ∨
        ∃ self T p, Op.pointer_ctor self T p ∈ ops ∧
          c.my_ptr = p ∧
          c.my_type_info = some (type_info.pointer_to T) ∧
          c.my_throw_func = some (Throw_func.throw_function_at T) ∧
          (c.my_ptr = 0 ↔ p = 0))
      (Or.inl ⟨rfl, rfl, rfl⟩) ops ?_ r
    intro op hmem self T p hop
    rw [hop] at hmem
    exact Or.inr ⟨self, T, p, hmem, rfl, rfl, rfl, Iff.rfl⟩
  · intro hall
    refine run_preserves (fun c => c.all_empty ∨ c.all_set)
      (Or.inl ⟨rfl, rfl, rfl⟩) ops ?_ r
    intro op hmem self T p hop
    have hnn := hall op hmem
    rw [hop] at hnn
    exact Or.inr ⟨by simpa [Op.binds_nonnull] using hnn, rfl, rfl⟩
  · intro st x T p
    have hp : (any_ptr.pointer_ctor st x T p x).my_ptr = p := by
      simp [any_ptr.pointer_ctor, Store.write, any_ptr.of_pointer]
    exact ⟨hp, by rw [hp]⟩

/-- C7 as stated fails: after move-constructing or move-assigning object
0 from object 1, which is bound to the pointer 200 to class 1, object 1
still has a value and still reports the type of a pointer to class 1. -/
theorem move_source_counterexample :
    (any_ptr.move_ctor two_bound 0 1 1).has_value = true ∧
    (any_ptr.move_ctor two_bound 0 1 1).type
      = type_info.pointer_to (class_type 1) ∧
    (any_ptr.move_ctor two_bound 0 1 1).type ≠ type_info.void_ ∧
    (any_ptr.move_assign two_bound 0 1 1).has_value = true ∧
    (any_ptr.move_assign two_bound 0 1 1).type
      = type_info.pointer_to (class_type 1) ∧
    (any_ptr.move_assign two_bound 0 1 1).type ≠ type_info.void_ := by
  decide

/-- C7, amended: after move-constructing or move-assigning a container d
from a container s, d holds the raw pointer, type tag and thrower that s
held before the move, and s holds them too: the move leaves s unchanged,
so s is empty afterwards exactly when it was empty before. -/
theorem move_keeps_source (st : Store) (d s : Ref) :
    any_ptr.move_ctor st d s d = st s ∧
    any_ptr.move_ctor st d s s = st s ∧
    any_ptr.move_assign st d s d = st s ∧
    any_ptr.move_assign st d s s = st s ∧
    (any_ptr.move_ctor st d s s).has_value = (st s).has_value ∧
    (any_ptr.move_assign st d s s).has_value = (st s).has_value ∧
    (any_ptr.move_ctor st d s s).type = (st s).type ∧
    (any_ptr.move_assign st d s s).type = (st s).type := by
  have h1 : any_ptr.move_ctor st d s s = st s := by
    simp [any_ptr.move_ctor, Store.write, memberwise_eq]
  have h2 : any_ptr.move_assign st d s s = st s := by
    simp [any_ptr.move_assign, Store.write, memberwise_eq]
  refine ⟨?_, h1, ?_, h2, ?_, ?_, ?_, ?_⟩
  · simp [any_ptr.move_ctor, Store.write, memberwise_eq]
  · simp [any_ptr.move_assign, Store.write, memberwise_eq]
  · rw [h1]
  · rw [h2]
  · rw [h1]
  · rw [h2]

/-- C8: swap symmetry. For two distinct containers x and y, after
x.swap(y) or std::swap(x, y) the full state of x is the prior state of y
and the full state of y is the prior state of x, and no other container
changes; if x was bound to p1 of type T1 and y to p2 of type T2, then x
retrieves p2 as T2 and y retrieves p1 as T1, in both forms. -/
theorem swap_symmetry (h : Hierarchy) (st : Store) (x y : Ref)
    (hxy : x ≠ y) :
    any_ptr.swap st x y x = st y ∧
    any_ptr.swap st x y y = st x ∧
    std_swap st x y x = st y ∧
    std_swap st x y y = st x ∧
    (∀ z, z ≠ x → z ≠ y → any_ptr.swap st x y z = st z) ∧
    (∀ T1 p1 T2 p2, st x = any_ptr.of_pointer T1 p1 →
      st y = any_ptr.of_pointer T2 p2 →
      any_ptr_cast_ptr h (any_ptr.swap st x y x) T2 = Except.ok (some p2) ∧
      any_ptr_cast_ref h (any_ptr.swap st x y x) T2 = Except.ok p2 ∧
      any_ptr_cast_ptr h (any_ptr.swap st x y y) T1 = Except.ok (some p1) ∧
      any_ptr_cast_ref h (any_ptr.swap st x y y) T1 = Except.ok p1) := by
  have hx : any_ptr.swap st x y x = st y := by
    simp [swap_apply, hxy]
  have hy : any_ptr.swap st x y y = st x := by
    simp [swap_apply]
  refine ⟨hx, hy, hx, hy, ?_, ?_⟩
  · intro z hzx hzy
    simp [swap_apply, hzx, hzy]
  · intro T1 p1 T2 p2 h1 h2
    rw [hx, hy, h1, h2]
    exact ⟨any_ptr_cast_ptr_exact h T2 p2, any_ptr_cast_ref_exact h T2 p2,
      any_ptr_cast_ptr_exact h T1 p1, any_ptr_cast_ref_exact h T1 p1⟩

/-- Witness of C8: swapping object 0, bound to the pointer 100 to class
0, with object 1, bound to the pointer 200 to class 1. -/
theorem swap_symmetry_witness :
    (0 : Ref) ≠ 1 ∧
    any_ptr.swap two_bound 0 1 0 = any_ptr.of_pointer (class_type 1) 200 ∧
    any_ptr.swap two_bound 0 1 1 = any_ptr.of_pointer (class_type 0) 100 ∧
    any_ptr_cast_ref no_bases (any_ptr.swap two_bound 0 1 0) (class_type 1)
      = Except.ok 200 ∧
    any_ptr_cast_ref no_bases (any_ptr.swap two_bound 0 1 1) (class_type 0)
      = Except.ok 100 :=
  have hs := swap_symmetry no_bases two_bound 0 1 (by decide)
  have hr := hs.2.2.2.2.2 (class_type 0) 100 (class_type 1) 200 rfl rfl
  ⟨by decide, hs.1, hs.2.1, hr.2.1, hr.2.2.2⟩

/-- C9: idempotent reset. After c.reset() the container equals the one
that the default constructor gives in all three fields, a second
c.reset() changes nothing, has_value() is false after one reset and after two, and every
retrieval then fails: absent in the non-throwing form, bad_any_ptr_cast
in the throwing form. -/
theorem reset_idempotent (h : Hierarchy) (st : Store) (c : Ref)
    (R : CType) :
    any_ptr.reset st c c = any_ptr.empty ∧
    (any_ptr.reset st c c).my_ptr = 0 ∧
    (any_ptr.reset st c c).my_type_info = none ∧
    (any_ptr.reset st c c).my_throw_func = none ∧
    any_ptr.reset (any_ptr.reset st c) c = any_ptr.reset st c ∧
    (any_ptr.reset st c c).has_value = false ∧
    (any_ptr.reset (any_ptr.reset st c) c c).has_value = false ∧
    any_ptr_cast_ptr h (any_ptr.reset st c c) R = Except.ok none ∧
    any_ptr_cast_ref h (any_ptr.reset st c c) R
      = Except.error Exn.bad_any_ptr_cast ∧
    any_ptr_cast_ptr h (any_ptr.reset (any_ptr.reset st c) c c) R
      = Except.ok none ∧
    any_ptr_cast_ref h (any_ptr.reset (any_ptr.reset st c) c c) R
      = Except.error Exn.bad_any_ptr_cast := by
  have h1 : any_ptr.reset st c c = any_ptr.empty := by
    simp [any_ptr.reset, any_ptr.default_ctor, Store.write]
  have h2 : any_ptr.reset (any_ptr.reset st c) c = any_ptr.reset st c := by
    funext z
    simp only [any_ptr.reset, any_ptr.default_ctor, Store.write]
    split <;> rfl
  refine ⟨h1, ?_, ?_, ?_, h2, ?_, ?_, ?_, ?_, ?_, ?_⟩
  · rw [h1]; rfl
  · rw [h1]; rfl
  · rw [h1]; rfl
  · rw [h1]; rfl
  · rw [h2, h1]; rfl
  · rw [h1]; exact any_ptr_cast_ptr_empty h R
  · rw [h1]; exact any_ptr_cast_ref_empty h R
  · rw [h2, h1]; exact any_ptr_cast_ptr_empty h R
  · rw [h2, h1]; exact any_ptr_cast_ref_empty h R

/-- C10: type() reports the exact bound type. The container constructed
from a T* has type() equal to typeid(T*), and type() equals typeid(B*)
only for B = T, so for no other type, base classes of T included; a
retrieval in either form, successful upcast included, leaves the
container, and so its type(), as it was. -/
theorem type_reports_exact (h : Hierarchy) (st : Store) (x : Ref)
    (T B R : CType) (p : Nat) :
    (any_ptr.of_pointer T p).type = type_info.pointer_to T ∧
    ((any_ptr.of_pointer T p).type = type_info.pointer_to B ↔ B = T) ∧
    (any_ptr_cast_ptr_at h (any_ptr.pointer_ctor st x T p) x R).2
      = any_ptr.pointer_ctor st x T p ∧
    (any_ptr_cast_ref_at h (any_ptr.pointer_ctor st x T p) x R).2
      = any_ptr.pointer_ctor st x T p ∧
    ((any_ptr_cast_ptr_at h (any_ptr.pointer_ctor st x T p) x R).2 x).type
      = type_info.pointer_to T ∧
    ((any_ptr_cast_ref_at h (any_ptr.pointer_ctor st x T p) x R).2 x).type
      = type_info.pointer_to T := by
  refine ⟨rfl, ?_, rfl, rfl, ?_, ?_⟩
  · simp [any_ptr.of_pointer, any_ptr.type, eq_comm]
  · simp [any_ptr_cast_ptr_at, any_ptr.pointer_ctor, Store.write,
      any_ptr.of_pointer, any_ptr.type]
  · simp [any_ptr_cast_ref_at, any_ptr.pointer_ctor, Store.write,
      any_ptr.of_pointer, any_ptr.type]

/-! ### Qualifiers in the matching routine -/

/-- C12: self-swap is a no-op. After x.swap(x), or std::swap(x, x), the
raw pointer, type tag and thrower of x are what they were before the
call, and so is every other container. -/
theorem self_swap_noop (st : Store) (x : Ref) :
    any_ptr.swap st x x x = st x ∧
    (any_ptr.swap st x x x).my_ptr = (st x).my_ptr ∧
    (any_ptr.swap st x x x).my_type_info = (st x).my_type_info ∧
    (any_ptr.swap st x x x).my_throw_func = (st x).my_throw_func ∧
    any_ptr.swap st x x = st ∧
    std_swap st x x = st := by
  have hs : any_ptr.swap st x x = st := by
    funext r
    rw [swap_apply]
    split
    · next hr => rw [hr]
    · rfl
  refine ⟨?_, ?_, ?_, ?_, hs, hs⟩ <;> rw [hs]

/-! ### Copies -/

/-- Writing one object leaves every other object as it was. -/
theorem write_other (st : Store) (r x : Ref) (v : any_ptr) (hx : x ≠ r) :
    st.write r v x = st x := by
  simp [Store.write, hx]

/-- Writing one object gives it the value written. -/
theorem write_same (st : Store) (r : Ref) (v : any_ptr) :
    st.write r v r = v := by
  simp [Store.write]

/-- C13: copies are equal and independent. A copy d of a container c, by
copy construction or copy assignment, has the raw pointer, type tag and
thrower of c, so both retrieval forms give on d what they give on c, and
c is unchanged by the copy; afterwards resetting d, swapping d with a
third container e in either order, or assigning to d (from e, or from a
newly bound pointer) leaves c as it was. -/
theorem copy_independent (h : Hierarchy) (st : Store) (c d e : Ref)
    (R T : CType) (p : Nat) (hdc : d ≠ c) (hec : e ≠ c) :
    any_ptr.copy_ctor st d c d = st c ∧
    any_ptr.copy_assign st d c d = st c ∧
    any_ptr.copy_ctor st d c c = st c ∧
    any_ptr.copy_assign st d c c = st c ∧
    any_ptr_cast_ptr h (any_ptr.copy_ctor st d c d) R
      = any_ptr_cast_ptr h (st c) R ∧
    any_ptr_cast_ref h (any_ptr.copy_ctor st d c d) R
      = any_ptr_cast_ref h (st c) R ∧
    any_ptr.reset (any_ptr.copy_ctor st d c) d c = st c ∧
    any_ptr.swap (any_ptr.copy_ctor st d c) d e c = st c ∧
    any_ptr.swap (any_ptr.copy_ctor st d c) e d c = st c ∧
    any_ptr.copy_assign (any_ptr.copy_ctor st d c) d e c = st c ∧
    any_ptr.move_assign (any_ptr.copy_ctor st d c) d e c = st c ∧
    any_ptr.pointer_ctor (any_ptr.copy_ctor st d c) d T p c = st c := by
  have hcd : c ≠ d := fun hh => hdc hh.symm
  have hce : c ≠ e := fun hh => hec hh.symm
  have h1 : any_ptr.copy_ctor st d c d = st c := by
    simp [any_ptr.copy_ctor, write_same, memberwise_eq]
  have h2 : any_ptr.copy_ctor st d c c = st c := by
    simp [any_ptr.copy_ctor, write_other _ _ _ _ hcd]
  refine ⟨h1, h1, h2, h2, ?_, ?_, ?_, ?_, ?_, ?_, ?_, ?_⟩
  · rw [h1]
  · rw [h1]
  · simp only [any_ptr.reset, any_ptr.default_ctor]
    rw [write_other _ _ _ _ hcd, h2]
  · rw [swap_apply]
    simp only [hce, hcd, if_false]
    exact h2
  · rw [swap_apply]
    simp only [hce, hcd, if_false]
    exact h2
  · simp only [any_ptr.copy_assign]
    rw [write_other _ _ _ _ hcd]
    exact h2
  · simp only [any_ptr.move_assign]
    rw [write_other _ _ _ _ hcd]
    exact h2
  · simp only [any_ptr.pointer_ctor]
    rw [write_other _ _ _ _ hcd]
    exact h2

/-- Witness of C13: object 2 is made a copy of object 0, which is bound
to the pointer 100 to class 0; object 1 is the third container. -/
theorem copy_independent_witness :
    (2 : Ref) ≠ 0 ∧ (1 : Ref) ≠ 0 ∧
    any_ptr.copy_ctor two_bound 2 0 2
      = any_ptr.of_pointer (class_type 0) 100 ∧
    any_ptr.copy_ctor two_bound 2 0 0
      = any_ptr.of_pointer (class_type 0) 100 ∧
    any_ptr.reset (any_ptr.copy_ctor two_bound 2 0) 2 0
      = any_ptr.of_pointer (class_type 0) 100 ∧
    any_ptr.swap (any_ptr.copy_ctor two_bound 2 0) 2 1 0
      = any_ptr.of_pointer (class_type 0) 100 :=
  have hc := copy_independent no_bases two_bound 0 2 1 (class_type 0)
    (class_type 1) 300 (by decide) (by decide)
  ⟨by decide, by decide, hc.1, hc.2.2.1, hc.2.2.2.2.2.2.1,
    hc.2.2.2.2.2.2.2.1⟩

/-! ### The matching routine and its specification -/

/-- On the empty container and on a container constructed from a pointer
the implemented routine returns what the specified routine gives. -/
theorem dynamic_up_cast_eq_spec (h : Hierarchy) (c : any_ptr) (R : CType)
    (hshape : c = any_ptr.empty ∨ ∃ T p, c = any_ptr.of_pointer T p) :
    c.dynamic_up_cast h R = Except.ok (spec_matching_routine h c R) := by
  rcases hshape with he | ⟨T, p, hb⟩
  · rw [he, dynamic_up_cast_empty]
    rfl
  · rw [hb]
    by_cases hTR : T = R
    · subst hTR
      rw [dynamic_up_cast_exact]
      simp [spec_matching_routine, any_ptr.of_pointer, any_ptr.has_value]
    · rw [dynamic_up_cast_thrown h T R p hTR]
      simp only [spec_matching_routine, any_ptr.of_pointer,
        any_ptr.has_value, Option.isSome_some, Bool.true_eq_false,
        if_false, if_neg hTR]
      cases catch_pointer h T R p <;> rfl

/-- Off the reachable states the order of the two tests shows: with a
type tag but no thrower the implemented routine succeeds on the exact
match, while the specified routine reports an empty container. -/
theorem matching_order_visible :
    ({ my_ptr := 5, my_throw_func := none,
       my_type_info := some (type_info.pointer_to (class_type 0)) }
      : any_ptr).dynamic_up_cast no_bases (class_type 0)
      = Except.ok (5, true) ∧
    spec_matching_routine no_bases
      { my_ptr := 5, my_throw_func := none,
        my_type_info := some (type_info.pointer_to (class_type 0)) }
      (class_type 0) = (0, false) :=
  ⟨rfl, rfl⟩

/-- C14: the implemented matching routine equals the specified one. For
every reachable container and every requested type R, dynamic_up_cast,
which tests the exact type match first and emptiness second and calls the
stored thrower, returns without raising the pair that the routine of the
specification gives, which tests emptiness first, then the exact match,
and then catches a throw of the raw pointer with the type of the type tag
as R*; and whenever the flag of the pair is false its pointer is null. -/
theorem matching_refines_spec (h : Hierarchy) (ops : List Op) (r : Ref)
    (R : CType) :
    (run ops r).dynamic_up_cast h R
      = Except.ok (spec_matching_routine h (run ops r) R) ∧
    ((spec_matching_routine h (run ops r) R).2 = false →
      (spec_matching_routine h (run ops r) R).1 = 0) ∧
    (∀ res, (run ops r).dynamic_up_cast h R = Except.ok res →
      res.2 = false → res.1 = 0) := by
  have heq := dynamic_up_cast_eq_spec h (run ops r) R (run_shape ops r)
  exact ⟨heq, fun hf => dynamic_up_cast_failing h (run ops r) R _ heq hf,
    fun res hres hf => dynamic_up_cast_failing h (run ops r) R res hres hf⟩

/-- C15: type tag and thrower are bound together. In every container
obtainable from the constructors by copy, move, swap and reset, the type
tag and the thrower are both absent, or are the identity of T* and the
instance of the thrower for T for one and the same type T; so
has_value() is true exactly when type() is not typeid(void). -/
theorem tag_and_thrower_bound_together (ops : List Op) (r : Ref) :
    (((run ops r).my_type_info = none ∧ (run ops r).my_throw_func = none) ∨
      ∃ T, (run ops r).bound_to T) ∧
    ((run ops r).has_value = true ↔ (run ops r).type ≠ type_info.void_) := by
  rcases run_shape ops r with he | ⟨T, p, hb⟩
  · rw [he]
    exact ⟨Or.inl ⟨rfl, rfl⟩, by simp [any_ptr.empty, any_ptr.has_value,
      any_ptr.type]⟩
  · rw [hb]
    exact ⟨Or.inr ⟨T, rfl, rfl⟩, by simp [any_ptr.of_pointer,
      any_ptr.has_value, any_ptr.type]⟩

/-- C16: a container bound to a null pointer is not empty. For every type
T the container constructed from the null T* has has_value() true and
type() equal to typeid(T*), the non-throwing retrieval of T gives present
holding null, not absent, and the throwing one returns null; the
container differs from a default-constructed one and from a reset
one. -/
theorem null_bound_not_empty (h : Hierarchy) (st : Store) (x : Ref)
    (T : CType) :
    (any_ptr.of_pointer T 0).has_value = true ∧
    (any_ptr.of_pointer T 0).type = type_info.pointer_to T ∧
    any_ptr_cast_ptr h (any_ptr.of_pointer T 0) T = Except.ok (some 0) ∧
    any_ptr_cast_ptr h (any_ptr.of_pointer T 0) T ≠ Except.ok none ∧
    any_ptr_cast_ref h (any_ptr.of_pointer T 0) T = Except.ok 0 ∧
    any_ptr.of_pointer T 0 ≠ any_ptr.empty ∧
    any_ptr.of_pointer T 0 ≠ any_ptr.reset st x x ∧
    any_ptr.empty.has_value = false ∧
    any_ptr_cast_ptr h any_ptr.empty T = Except.ok none := by
  have hne : any_ptr.of_pointer T 0 ≠ any_ptr.empty := by
    simp [any_ptr.of_pointer, any_ptr.empty]
  refine ⟨rfl, rfl, any_ptr_cast_ptr_exact h T 0, ?_,
    any_ptr_cast_ref_exact h T 0, hne, ?_, rfl, any_ptr_cast_ptr_empty h T⟩
  · rw [any_ptr_cast_ptr_exact]
    intro habs
    cases habs
  · simpa [any_ptr.reset, any_ptr.default_ctor, write_same] using hne

/-- C17: retrieval succeeds for conversions that are not base-class
upcasts. For a container bound to a pointer p of type T*, T an object
type without cv-qualifiers, the requests for void and for const T both
fail the exact type test, go through the thrower and the handler, and
succeed in both forms with the address p. -/
theorem void_and_const_retrieval (h : Hierarchy) (T : CType) (p : Nat)
    (hobj : T.core ≠ Core.void) (hc : T.is_const = false)
    (hv : T.is_volatile = false) :
    (any_ptr.of_pointer T p).type ≠ type_info.pointer_to void_type ∧
    (any_ptr.of_pointer T p).type ≠ type_info.pointer_to T.add_const ∧
    (any_ptr.of_pointer T p).has_value = true ∧
    handler_match h (Exn.pointer T p) void_type = some p ∧
    handler_match h (Exn.pointer T p) T.add_const = some p ∧
    any_ptr_cast_ptr h (any_ptr.of_pointer T p) void_type
      = Except.ok (some p) ∧
    any_ptr_cast_ref h (any_ptr.of_pointer T p) void_type = Except.ok p ∧
    any_ptr_cast_ptr h (any_ptr.of_pointer T p) T.add_const
      = Except.ok (some p) ∧
    any_ptr_cast_ref h (any_ptr.of_pointer T p) T.add_const
      = Except.ok p := by
  have hTv : T ≠ void_type := by
    intro heq
    apply hobj
    rw [heq]
    rfl
  have hTc : T ≠ T.add_const := by
    intro heq
    have hcc := congrArg CType.is_const heq
    rw [hc] at hcc
    cases hcc
  have hcv : catch_pointer h T void_type p = some p := by
    simp [catch_pointer, cv_le, void_type, CType.plain, hc, hv, hobj]
  have hcc : catch_pointer h T T.add_const p = some p := by
    simp [catch_pointer, cv_le, CType.add_const, hc, hv]
  refine ⟨?_, ?_, rfl, hcv, hcc, ?_, ?_, ?_, ?_⟩
  · simpa [any_ptr.of_pointer, any_ptr.type] using hTv
  · simpa [any_ptr.of_pointer, any_ptr.type] using hTc
  · rw [any_ptr_cast_ptr_thrown h T void_type p hTv, hcv]
  · rw [any_ptr_cast_ref_thrown h T void_type p hTv, hcv]
  · rw [any_ptr_cast_ptr_thrown h T T.add_const p hTc, hcc]
  · rw [any_ptr_cast_ref_thrown h T T.add_const p hTc, hcc]

/-- Witness of C17: the pointer 100 to class 0 is retrieved as void and
as const class 0. -/
theorem void_and_const_retrieval_witness :
    (class_type 0).core ≠ Core.void ∧
    (class_type 0).is_const = false ∧
    (class_type 0).is_volatile = false ∧
    any_ptr_cast_ref no_bases (any_ptr.of_pointer (class_type 0) 100)
        void_type = Except.ok 100 ∧
    any_ptr_cast_ref no_bases (any_ptr.of_pointer (class_type 0) 100)
        (class_type 0).add_const = Except.ok 100 :=
  have hw := void_and_const_retrieval no_bases (class_type 0) 100
    (by decide) rfl rfl
  ⟨by decide, rfl, rfl, hw.2.2.2.2.2.2.1, hw.2.2.2.2.2.2.2.2⟩

end xxx
